import Mathlib

/-!
# Verification of the AI-PayMaster heuristic engines

Shallow embedding of `src/tools/paymaster/AIYieldOptimizer.ts`
(classes `AIYieldOptimizer` and `RiskAssessmentEngine`).

Modelling conventions:
* JavaScript numbers are modelled as `ℚ` (exact arithmetic); numeric
  strings that the code feeds through `parseFloat` are modelled as the
  parsed rational directly.
* `Math.round x` is `⌊x + 1/2⌋` (round half toward +∞), as in JS.
* `Number.MAX_SAFE_INTEGER` is the literal `9007199254740991`.
* `Date.now() / 1000` is an explicit `now : ℚ` parameter.
* JS records `Record<number, number>` are association lists; JS objects
  used as keyed price tables are total functions `String → ℚ`
  (missing-key `NaN` propagation is outside the model).
* Methods that `throw` are `Except String`; templated human-readable
  strings (`reason`, `position`, `recommendedActions`) are modelled by
  structured values carrying exactly the data the template interpolates.
* Class instances are explicit state values; a method call is a function
  of the state, and stateful variants (suffix `M`) additionally return
  the state as left by the call, mirroring the absence or presence of
  assignments to `this` in the method body.
-/

/-- JS `Math.round`: round half toward positive infinity. -/
def jsRound (x : ℚ) : ℤ := ⌊x + 1/2⌋

/-- `Number.MAX_SAFE_INTEGER`, used by the source as a fold sentinel. -/
def maxSafeInteger : ℚ := 9007199254740991

/-- The descending `if (v <= critical) ... else if (v <= high) ... else if
(v <= medium) ... else "Low"` classification chain, written once; each of
the three risk dimensions in the source inlines exactly this chain. -/
def classifyByLe (v critical high medium : ℚ) : String :=
  if v ≤ critical then "Critical"
  else if v ≤ high then "High"
  else if v ≤ medium then "Medium"
  else "Low"

/-- Severity rank of a risk-level string (Low < Medium < High < Critical). -/
def severityRank (s : String) : ℕ :=
  if s = "Critical" then 3
  else if s = "High" then 2
  else if s = "Medium" then 1
  else 0

/-- Risk-level string of a severity rank. -/
def rankToLevel (n : ℕ) : String :=
  if n = 0 then "Low"
  else if n = 1 then "Medium"
  else if n = 2 then "High"
  else "Critical"

/-- Maximum severity rank appearing in a list of risk-level strings. -/
def maxRank (levels : List String) : ℕ :=
  levels.foldr (fun s acc => max (severityRank s) acc) 0

/-- `interface ProtocolInfo` (`minimumDeposit` is a numeric string in the
source, modelled as the parsed rational). -/
structure ProtocolInfo where
  id : ℤ
  name : String
  currentApy : ℚ
  riskScore : ℚ
  minimumDeposit : ℚ
  lockupPeriod : ℚ
deriving Repr, DecidableEq

/-- The tier chosen by `generateRecommendationReason`'s
allocation-percentage cascade (`>50` / `>25` / otherwise). -/
inductive ReasonTier where
  | stronglyRecommended
  | goodAllocation
  | smallAllocation
deriving Repr, DecidableEq

/-- Structured model of the `reason` string: the chosen template tier plus
the data the template interpolates (`currentApy` and the risk level). -/
structure Reason where
  tier : ReasonTier
  apy : ℚ
  riskLevel : String
deriving Repr, DecidableEq

/-- `interface StrategyRecommendation`. -/
structure StrategyRecommendation where
  protocolId : ℤ
  protocolName : String
  allocationPercentage : ℚ
  expectedApy : ℚ
  riskLevel : String
  reason : Reason
deriving Repr, DecidableEq

/-- State of `class AIYieldOptimizer`: protocol catalog plus the stored
user risk preference. -/
structure AIYieldOptimizer where
  protocols : List ProtocolInfo
  userRiskPreference : ℚ
deriving Repr, DecidableEq

/-- The constructor's sample protocol catalog. -/
def defaultProtocols : List ProtocolInfo :=
  [ { id := 1, name := "Thala", currentApy := 5.2, riskScore := 3,
      minimumDeposit := 1, lockupPeriod := 0 },
    { id := 2, name := "Aries", currentApy := 7.8, riskScore := 5,
      minimumDeposit := 10, lockupPeriod := 86400 * 7 },
    { id := 3, name := "Momentum", currentApy := 12.5, riskScore := 8,
      minimumDeposit := 100, lockupPeriod := 86400 * 30 } ]

/-- `new AIYieldOptimizer(userRiskPreference)`. -/
def mkAIYieldOptimizer (userRiskPreference : ℚ := 5) : AIYieldOptimizer :=
  { protocols := defaultProtocols, userRiskPreference := userRiskPreference }

/-- `setRiskPreference`: throws when the value is outside `[1, 10]`,
otherwise stores it. -/
def setRiskPreference (s : AIYieldOptimizer) (riskPreference : ℚ) :
    Except String AIYieldOptimizer :=
  if riskPreference < 1 ∨ riskPreference > 10 then
    .error "Risk preference must be between 1 and 10"
  else
    .ok { s with userRiskPreference := riskPreference }

/-- `Partial<ProtocolInfo>`: each field optionally supplied. -/
structure ProtocolInfoPatch where
  id : Option ℤ := none
  name : Option String := none
  currentApy : Option ℚ := none
  riskScore : Option ℚ := none
  minimumDeposit : Option ℚ := none
  lockupPeriod : Option ℚ := none
deriving Repr, DecidableEq

/-- Object-spread merge `{ ...p, ...updates }` of a patch into a protocol
entry. -/
def applyPatch (p : ProtocolInfo) (u : ProtocolInfoPatch) : ProtocolInfo :=
  { id := u.id.getD p.id
    name := u.name.getD p.name
    currentApy := u.currentApy.getD p.currentApy
    riskScore := u.riskScore.getD p.riskScore
    minimumDeposit := u.minimumDeposit.getD p.minimumDeposit
    lockupPeriod := u.lockupPeriod.getD p.lockupPeriod }

/-- `updateProtocolInfo`: throws when no catalog entry has the given id,
otherwise merges the patch into the first matching entry. -/
def updateProtocolInfo (s : AIYieldOptimizer) (protocolId : ℤ)
    (updates : ProtocolInfoPatch) : Except String AIYieldOptimizer :=
  if s.protocols.all (fun p => p.id ≠ protocolId) then
    .error "Protocol not found"
  else
    .ok { s with protocols :=
      s.protocols.map (fun p => if p.id = protocolId then applyPatch p updates else p) }

/-- `calculateRiskAdjustedApy`:
`apy - (riskScore * (11 - userRiskPreference)) / 10`. -/
def calculateRiskAdjustedApy (s : AIYieldOptimizer) (apy riskScore : ℚ) : ℚ :=
  apy - riskScore * (11 - s.userRiskPreference) / 10

/-- `getRiskLevelDescription`. -/
def getRiskLevelDescription (riskScore : ℚ) : String :=
  if riskScore ≤ 3 then "Low"
  else if riskScore ≤ 6 then "Medium"
  else "High"

/-- `generateRecommendationReason`: selects a template tier from the
allocation percentage and interpolates the raw APY and risk level. -/
def generateRecommendationReason (p : ProtocolInfo) (allocationPercentage : ℚ) :
    Reason :=
  { tier :=
      if allocationPercentage > 50 then .stronglyRecommended
      else if allocationPercentage > 25 then .goodAllocation
      else .smallAllocation
    apy := p.currentApy
    riskLevel := getRiskLevelDescription p.riskScore }

/-- An eligible protocol paired with its risk-adjusted APY (the
`{ ...p, adjustedApy }` spread objects of `optimizeAllocation`). -/
structure ProtocolAdj where
  info : ProtocolInfo
  adjustedApy : ℚ
deriving Repr, DecidableEq

/-- Stable descending insertion by `adjustedApy`: an element moves ahead
only of strictly smaller keys, so equal keys keep input order — the
order produced by the stable JS `sort((a, b) => b.adjustedApy - a.adjustedApy)`. -/
def insertDesc (x : ProtocolAdj) : List ProtocolAdj → List ProtocolAdj
  | [] => [x]
  | y :: ys => if x.adjustedApy ≥ y.adjustedApy then x :: y :: ys
               else y :: insertDesc x ys

/-- Stable sort, descending by `adjustedApy`. -/
def sortByAdjustedApy : List ProtocolAdj → List ProtocolAdj
  | [] => []
  | x :: xs => insertDesc x (sortByAdjustedApy xs)

/-- Allocatable funds: available funds minus the emergency reserve. -/
def allocatableFunds (availableFunds emergencyFundsPercentage : ℚ) : ℚ :=
  availableFunds - availableFunds * (emergencyFundsPercentage / 100)

/-- The minimum-deposit filter of `optimizeAllocation`. -/
def eligibleProtocols (s : AIYieldOptimizer)
    (availableFunds emergencyFundsPercentage : ℚ) : List ProtocolInfo :=
  s.protocols.filter
    (fun p => p.minimumDeposit ≤ allocatableFunds availableFunds emergencyFundsPercentage)

/-- Eligible protocols paired with their risk-adjusted APYs. -/
def protocolsWithAdjustedApy (s : AIYieldOptimizer)
    (availableFunds emergencyFundsPercentage : ℚ) : List ProtocolAdj :=
  (eligibleProtocols s availableFunds emergencyFundsPercentage).map
    (fun p => { info := p, adjustedApy := calculateRiskAdjustedApy s p.currentApy p.riskScore })

/-- Eligible protocols sorted descending by risk-adjusted APY. -/
def sortedProtocols (s : AIYieldOptimizer)
    (availableFunds emergencyFundsPercentage : ℚ) : List ProtocolAdj :=
  sortByAdjustedApy (protocolsWithAdjustedApy s availableFunds emergencyFundsPercentage)

/-- `totalAdjustedApy`: the reduce-sum of adjusted APYs. -/
def totalAdjustedApy (s : AIYieldOptimizer)
    (availableFunds emergencyFundsPercentage : ℚ) : ℚ :=
  ((sortedProtocols s availableFunds emergencyFundsPercentage).map
    (fun p => p.adjustedApy)).sum

/-- The recommendation pushed for a protocol at a given allocation. -/
def mkRecommendation (p : ProtocolAdj) (allocationPercentage : ℚ) :
    StrategyRecommendation :=
  { protocolId := p.info.id
    protocolName := p.info.name
    allocationPercentage := allocationPercentage
    expectedApy := p.info.currentApy
    riskLevel := getRiskLevelDescription p.info.riskScore
    reason := generateRecommendationReason p.info allocationPercentage }

/-- The `forEach` allocation loop: each non-last protocol gets
`min (round (adjustedApy / total * 100)) remaining`, the last protocol
gets all of `remaining`; the allocation is subtracted from `remaining`
and the entry is pushed only when it is positive. -/
def allocate (total : ℚ) : List ProtocolAdj → ℚ → List StrategyRecommendation
  | [], _ => []
  | [p], remaining =>
      if remaining > 0 then [mkRecommendation p remaining] else []
  | p :: q :: rest, remaining =>
      let alloc := min ((jsRound (p.adjustedApy / total * 100) : ℤ) : ℚ) remaining
      let tail := allocate total (q :: rest) (remaining - alloc)
      if alloc > 0 then mkRecommendation p alloc :: tail else tail

/-- `optimizeAllocation(availableFunds, emergencyFundsPercentage = 10)`. -/
def optimizeAllocation (s : AIYieldOptimizer)
    (availableFunds : ℚ) (emergencyFundsPercentage : ℚ := 10) :
    List StrategyRecommendation :=
  if allocatableFunds availableFunds emergencyFundsPercentage ≤ 0 then []
  else if eligibleProtocols s availableFunds emergencyFundsPercentage = [] then []
  else
    allocate (totalAdjustedApy s availableFunds emergencyFundsPercentage)
      (sortedProtocols s availableFunds emergencyFundsPercentage) 100

/-- Lookup in the `recommendedAllocation` record built by successive
assignment (a later entry for the same id overwrites an earlier one);
an absent id reads as 0 (`|| 0`). -/
def recLookup (entries : List (ℤ × ℚ)) (protocolId : ℤ) : ℚ :=
  entries.foldl (fun acc e => if e.1 = protocolId then e.2 else acc) 0

/-- `shouldRebalance(currentAllocation)`: recomputes the reference
allocation for the placeholder amount 1000 and scans the entries of the
*current* allocation record for a gap of more than 10 points. -/
def shouldRebalance (s : AIYieldOptimizer) (currentAllocation : List (ℤ × ℚ)) :
    Bool :=
  let recommendations := optimizeAllocation s 1000 10
  let recommendedAllocation :=
    recommendations.map (fun r => (r.protocolId, r.allocationPercentage))
  currentAllocation.any
    (fun e => |e.2 - recLookup recommendedAllocation e.1| > 10)

/-- `getProtocolsInfo`: a (shallow) copy of the catalog. -/
def getProtocolsInfo (s : AIYieldOptimizer) : List ProtocolInfo :=
  s.protocols

/-! ## RiskAssessmentEngine -/

/-- A mock pending payment (`amount` is a numeric string in the source,
modelled as the parsed rational; `nextPaymentTime` is in seconds). -/
structure Payment where
  id : ℤ
  recipient : String
  amount : ℚ
  nextPaymentTime : ℚ
  coin : String
deriving Repr, DecidableEq

/-- A mock borrow/collateral position (amounts are numeric strings in the
source, modelled as parsed rationals). -/
structure Position where
  protocol : String
  borrowedAsset : String
  borrowedAmount : ℚ
  collateralAsset : String
  collateralAmount : ℚ
  liquidationThreshold : ℚ
deriving Repr, DecidableEq

/-- The engine's `mockData` record; `prices` and `priceMovements` are JS
objects keyed by asset symbol, modelled as total functions. -/
structure MockData where
  payments : List Payment
  positions : List Position
  prices : String → ℚ
  priceMovements : String → ℚ

/-- State of `class RiskAssessmentEngine`: the nine threshold fields plus
the mock data ledger. -/
structure RiskAssessmentEngine where
  liquidityMediumThreshold : ℚ
  liquidityHighThreshold : ℚ
  liquidityCriticalThreshold : ℚ
  collateralMediumThreshold : ℚ
  collateralHighThreshold : ℚ
  collateralCriticalThreshold : ℚ
  liquidationMediumThreshold : ℚ
  liquidationHighThreshold : ℚ
  liquidationCriticalThreshold : ℚ
  mockData : MockData

/-- The constructor's mock prices table. -/
def defaultPrices : String → ℚ := fun asset =>
  if asset = "APT" then 10
  else if asset = "USDC" then 1
  else if asset = "USDT" then 1
  else 0

/-- The constructor's mock daily price movements table. -/
def defaultPriceMovements : String → ℚ := fun asset =>
  if asset = "APT" then -2.5 else 0

/-- `new RiskAssessmentEngine()` — the constructor reads `Date.now()`,
passed here explicitly as `now` (seconds). -/
def mkRiskAssessmentEngine (now : ℚ) : RiskAssessmentEngine :=
  { liquidityMediumThreshold := 80
    liquidityHighThreshold := 50
    liquidityCriticalThreshold := 20
    collateralMediumThreshold := 150
    collateralHighThreshold := 125
    collateralCriticalThreshold := 110
    liquidationMediumThreshold := 7 * 86400
    liquidationHighThreshold := 3 * 86400
    liquidationCriticalThreshold := 1 * 86400
    mockData :=
      { payments :=
          [ { id := 1, recipient := "0x123", amount := 100,
              nextPaymentTime := now + 86400 * 2,
              coin := "0x1::aptos_coin::AptosCoin" },
            { id := 2, recipient := "0x456", amount := 50,
              nextPaymentTime := now + 86400 * 5,
              coin := "0x1::usdc::USDC" } ]
        positions :=
          [ { protocol := "Aries", borrowedAsset := "USDC",
              borrowedAmount := 1000, collateralAsset := "APT",
              collateralAmount := 50, liquidationThreshold := 125 },
            { protocol := "Momentum", borrowedAsset := "USDT",
              borrowedAmount := 500, collateralAsset := "APT",
              collateralAmount := 35, liquidationThreshold := 110 } ]
        prices := defaultPrices
        priceMovements := defaultPriceMovements } }

/-- A `{medium, high, critical}` threshold triple. -/
structure ThresholdTriple where
  medium : ℚ
  high : ℚ
  critical : ℚ
deriving Repr, DecidableEq

/-- `setRiskThresholds`: each supplied triple is stored unconditionally
(the source performs no validation and has no failure path). -/
def setRiskThresholds (s : RiskAssessmentEngine)
    (liquidityThresholds collateralThresholds liquidationThresholds :
      Option ThresholdTriple) : RiskAssessmentEngine :=
  let s₁ := match liquidityThresholds with
    | none => s
    | some t => { s with liquidityMediumThreshold := t.medium,
                         liquidityHighThreshold := t.high,
                         liquidityCriticalThreshold := t.critical }
  let s₂ := match collateralThresholds with
    | none => s₁
    | some t => { s₁ with collateralMediumThreshold := t.medium,
                          collateralHighThreshold := t.high,
                          collateralCriticalThreshold := t.critical }
  match liquidationThresholds with
    | none => s₂
    | some t => { s₂ with liquidationMediumThreshold := t.medium,
                          liquidationHighThreshold := t.high,
                          liquidationCriticalThreshold := t.critical }

/-- `interface LiquidityRisk` (`requiredLiquidity` and
`availableLiquidity` are stringified numbers in the source, kept as
rationals here). -/
structure LiquidityRisk where
  requiredLiquidity : ℚ
  availableLiquidity : ℚ
  liquidityRatio : ℚ
  riskLevel : String
  timeUntilNextPayment : ℚ
deriving Repr, DecidableEq

/-- `interface CollateralRisk`. -/
structure CollateralRisk where
  borrowedAmount : ℚ
  collateralAmount : ℚ
  collateralRatio : ℚ
  riskLevel : String
  liquidationThreshold : ℚ
deriving Repr, DecidableEq

/-- The `position` description string of `LiquidationRisk`, modelled by
the data the template interpolates. -/
structure PositionDesc where
  borrowedAmount : ℚ
  borrowedAsset : String
  collateralAmount : ℚ
  collateralAsset : String
deriving Repr, DecidableEq

/-- `interface LiquidationRisk`. -/
structure LiquidationRisk where
  protocol : String
  position : PositionDesc
  currentPrice : ℚ
  liquidationPrice : ℚ
  priceGap : ℚ
  estimatedTimeToLiquidation : ℚ
  riskLevel : String
deriving Repr, DecidableEq

/-- The coin tag the liquidity scan filters on. -/
def aptosCoin : String := "0x1::aptos_coin::AptosCoin"

/-- The base-asset pending payments (`payment.coin === AptosCoin`). -/
def basePayments (s : RiskAssessmentEngine) : List Payment :=
  s.mockData.payments.filter (fun p => p.coin = aptosCoin)

/-- `requiredLiquidity`: sum of base-asset pending amounts. -/
def requiredLiquidity (s : RiskAssessmentEngine) : ℚ :=
  ((basePayments s).map (fun p => p.amount)).sum

/-- The earliest base-asset `nextPaymentTime`, folded from the
`Number.MAX_SAFE_INTEGER` sentinel with a strict `<` update. -/
def earliestPaymentTime (s : RiskAssessmentEngine) : ℚ :=
  (basePayments s).foldl
    (fun acc p => if p.nextPaymentTime < acc then p.nextPaymentTime else acc)
    maxSafeInteger

/-- `assessLiquidityRisk(availableLiquidity)` (the call to `Date.now()`
is the explicit `now` parameter). -/
def assessLiquidityRisk (s : RiskAssessmentEngine) (now : ℚ)
    (availableLiquidity : ℚ) : Option LiquidityRisk :=
  if requiredLiquidity s = 0 then none
  else
    let liquidityRatio := min 100 (availableLiquidity / requiredLiquidity s * 100)
    some
      { requiredLiquidity := requiredLiquidity s
        availableLiquidity := availableLiquidity
        liquidityRatio := liquidityRatio
        riskLevel := classifyByLe liquidityRatio s.liquidityCriticalThreshold
          s.liquidityHighThreshold s.liquidityMediumThreshold
        timeUntilNextPayment := earliestPaymentTime s - now }

/-- A position's collateral ratio
`(collateralAmount * collateralPrice) / (borrowedAmount * borrowedPrice) * 100`. -/
def collateralRatioOf (s : RiskAssessmentEngine) (p : Position) : ℚ :=
  p.collateralAmount * s.mockData.prices p.collateralAsset /
    (p.borrowedAmount * s.mockData.prices p.borrowedAsset) * 100

/-- The riskiest-position scan of `assessCollateralRisk`: tracks the
position with the lowest collateral ratio, starting from a `null`
position and the `Number.MAX_SAFE_INTEGER` sentinel. -/
def collateralScan (s : RiskAssessmentEngine) :
    List Position → Option Position × ℚ → Option Position × ℚ
  | [], acc => acc
  | p :: rest, acc =>
      collateralScan s rest
        (if collateralRatioOf s p < acc.2 then (some p, collateralRatioOf s p) else acc)

/-- `assessCollateralRisk()`. -/
def assessCollateralRisk (s : RiskAssessmentEngine) : Option CollateralRisk :=
  if s.mockData.positions = [] then none
  else
    match collateralScan s s.mockData.positions (none, maxSafeInteger) with
    | (none, _) => none
    | (some p, lowest) =>
        some
          { borrowedAmount := p.borrowedAmount
            collateralAmount := p.collateralAmount
            collateralRatio := lowest
            riskLevel := classifyByLe lowest s.collateralCriticalThreshold
              s.collateralHighThreshold s.collateralMediumThreshold
            liquidationThreshold := p.liquidationThreshold }

/-- The per-position liquidation details computed inside the
`assessLiquidationRisk` loop. -/
structure LiquidationDetails where
  currentPrice : ℚ
  liquidationPrice : ℚ
  priceGap : ℚ
deriving Repr, DecidableEq

/-- `liquidationPrice = borrowedValue * liquidationThreshold / 100 /
collateralAmount` for a position. -/
def liquidationPriceOf (s : RiskAssessmentEngine) (p : Position) : ℚ :=
  p.borrowedAmount * s.mockData.prices p.borrowedAsset *
    p.liquidationThreshold / 100 / p.collateralAmount

/-- `priceGap = (currentPrice - liquidationPrice) / currentPrice * 100`. -/
def priceGapOf (s : RiskAssessmentEngine) (p : Position) : ℚ :=
  (s.mockData.prices p.collateralAsset - liquidationPriceOf s p) /
    s.mockData.prices p.collateralAsset * 100

/-- Estimated time to liquidation of a position: 0 when already at or past
the liquidation price, the `MAX_SAFE_INTEGER` sentinel when the price is
flat or rising, otherwise `priceGap / |dailyChange|` days in seconds. -/
def estimatedTimeOf (s : RiskAssessmentEngine) (p : Position) : ℚ :=
  let priceGap := priceGapOf s p
  let dailyPriceChange := s.mockData.priceMovements p.collateralAsset
  if dailyPriceChange ≥ 0 ∨ priceGap ≤ 0 then
    if priceGap ≤ 0 then 0 else maxSafeInteger
  else
    priceGap / |dailyPriceChange| * 86400

/-- The closest-to-liquidation scan: tracks the position with the shortest
estimated time, from a `null` position and the sentinel. -/
def liquidationScan (s : RiskAssessmentEngine) :
    List Position → Option Position × ℚ → Option Position × ℚ
  | [], acc => acc
  | p :: rest, acc =>
      liquidationScan s rest
        (if estimatedTimeOf s p < acc.2 then (some p, estimatedTimeOf s p) else acc)

/-- `assessLiquidationRisk()`. -/
def assessLiquidationRisk (s : RiskAssessmentEngine) : Option LiquidationRisk :=
  if s.mockData.positions = [] then none
  else
    match liquidationScan s s.mockData.positions (none, maxSafeInteger) with
    | (none, _) => none
    | (some p, shortest) =>
        some
          { protocol := p.protocol
            position := { borrowedAmount := p.borrowedAmount
                          borrowedAsset := p.borrowedAsset
                          collateralAmount := p.collateralAmount
                          collateralAsset := p.collateralAsset }
            currentPrice := s.mockData.prices p.collateralAsset
            liquidationPrice := liquidationPriceOf s p
            priceGap := priceGapOf s p
            estimatedTimeToLiquidation := shortest
            riskLevel := classifyByLe shortest s.liquidationCriticalThreshold
              s.liquidationHighThreshold s.liquidationMediumThreshold }

/-- One entry of `recommendedActions`, modelled by the rule that fired and
the data its message template interpolates. -/
inductive RecommendedAction where
  | addLiquidity (shortfall : ℚ)
  | urgentPaymentDue
  | addCollateralBuffer
  | collateralWarning
  | liquidationCritical (protocol : String)
  | liquidationWarning (protocol : String)
  | priceGapWarning (priceGap : ℚ)
  | positionsStable
deriving Repr, DecidableEq

/-- The sub-assessment triple threaded through `performRiskAssessment`. -/
structure SubAssessments where
  liquidityRisk : Option LiquidityRisk
  collateralRisk : Option CollateralRisk
  liquidationRisk : Option LiquidationRisk
deriving Repr, DecidableEq

/-- `getRecommendations`: the dimension-specific rule chains, in source
order; a single stable message when no rule fires. -/
def getRecommendations (a : SubAssessments) : List RecommendedAction :=
  let liquidityRecs : List RecommendedAction :=
    match a.liquidityRisk with
    | none => []
    | some r =>
        (if r.liquidityRatio < 100 then
          [.addLiquidity (r.requiredLiquidity * (1 - r.liquidityRatio / 100))]
         else []) ++
        (if r.timeUntilNextPayment < 86400 ∧ r.liquidityRatio < 100 then
          [.urgentPaymentDue] else [])
  let collateralRecs : List RecommendedAction :=
    match a.collateralRisk with
    | none => []
    | some c =>
        (if c.collateralRatio < c.liquidationThreshold * 1.2 then
          [.addCollateralBuffer] else []) ++
        (if c.collateralRatio < c.liquidationThreshold * 1.1 then
          [.collateralWarning] else [])
  let liquidationRecs : List RecommendedAction :=
    match a.liquidationRisk with
    | none => []
    | some l =>
        (if l.estimatedTimeToLiquidation < 86400 * 3 then
          [.liquidationCritical l.protocol]
         else if l.estimatedTimeToLiquidation < 86400 * 7 then
          [.liquidationWarning l.protocol]
         else []) ++
        (if l.priceGap < 10 then [.priceGapWarning l.priceGap] else [])
  let recommendations := liquidityRecs ++ collateralRecs ++ liquidationRecs
  if recommendations = [] then [.positionsStable] else recommendations

/-- `interface RiskAssessment`. -/
structure RiskAssessment where
  liquidityRisk : Option LiquidityRisk
  collateralRisk : Option CollateralRisk
  liquidationRisk : Option LiquidationRisk
  overallRiskLevel : String
  recommendedActions : List RecommendedAction
deriving Repr, DecidableEq

/-- The filtered list of present sub-assessment risk levels
(`[liq?.riskLevel, coll?.riskLevel, liqd?.riskLevel].filter(Boolean)`). -/
def presentRiskLevels (s : RiskAssessmentEngine) (now availableLiquidity : ℚ) :
    List String :=
  ((assessLiquidityRisk s now availableLiquidity).map (fun r => r.riskLevel)).toList ++
  ((assessCollateralRisk s).map (fun r => r.riskLevel)).toList ++
  ((assessLiquidationRisk s).map (fun r => r.riskLevel)).toList

/-- `performRiskAssessment(availableLiquidity)`. -/
def performRiskAssessment (s : RiskAssessmentEngine) (now availableLiquidity : ℚ) :
    RiskAssessment :=
  let liquidityRisk := assessLiquidityRisk s now availableLiquidity
  let collateralRisk := assessCollateralRisk s
  let liquidationRisk := assessLiquidationRisk s
  let riskLevels := presentRiskLevels s now availableLiquidity
  let overallRiskLevel :=
    if "Critical" ∈ riskLevels then "Critical"
    else if "High" ∈ riskLevels then "High"
    else if "Medium" ∈ riskLevels then "Medium"
    else "Low"
  { liquidityRisk := liquidityRisk
    collateralRisk := collateralRisk
    liquidationRisk := liquidationRisk
    overallRiskLevel := overallRiskLevel
    recommendedActions := getRecommendations
      { liquidityRisk := liquidityRisk, collateralRisk := collateralRisk,
        liquidationRisk := liquidationRisk } }

/-- `Partial<typeof mockData>`: each section optionally supplied. -/
structure MockDataPatch where
  payments : Option (List Payment) := none
  positions : Option (List Position) := none
  prices : Option (String → ℚ) := none
  priceMovements : Option (String → ℚ) := none

/-- `updateMockData(data)`: object-spread merge of supplied sections. -/
def updateMockData (s : RiskAssessmentEngine) (data : MockDataPatch) :
    RiskAssessmentEngine :=
  { s with mockData :=
    { payments := data.payments.getD s.mockData.payments
      positions := data.positions.getD s.mockData.positions
      prices := data.prices.getD s.mockData.prices
      priceMovements := data.priceMovements.getD s.mockData.priceMovements } }

/-! ## Stateful method variants

Each `...M` function is the method with its receiver threaded explicitly:
it returns the method's result together with the state as left by the
call. Methods whose bodies contain no assignment to `this` leave the
state component untouched; `setRiskPreference` and `updateProtocolInfo`
already return the successor state inside `Except`. -/

/-- `optimizeAllocation` with the receiver threaded. -/
def optimizeAllocationM (s : AIYieldOptimizer)
    (availableFunds emergencyFundsPercentage : ℚ) :
    List StrategyRecommendation × AIYieldOptimizer :=
  (optimizeAllocation s availableFunds emergencyFundsPercentage, s)

/-- `shouldRebalance` with the receiver threaded (through its
`optimizeAllocation` sub-call). -/
def shouldRebalanceM (s : AIYieldOptimizer) (currentAllocation : List (ℤ × ℚ)) :
    Bool × AIYieldOptimizer :=
  let (recommendations, s₁) := optimizeAllocationM s 1000 10
  let recommendedAllocation :=
    recommendations.map (fun r => (r.protocolId, r.allocationPercentage))
  (currentAllocation.any
    (fun e => |e.2 - recLookup recommendedAllocation e.1| > 10), s₁)

/-- `getProtocolsInfo` with the receiver threaded. -/
def getProtocolsInfoM (s : AIYieldOptimizer) :
    List ProtocolInfo × AIYieldOptimizer :=
  (getProtocolsInfo s, s)

/-- `assessLiquidityRisk` with the receiver threaded. -/
def assessLiquidityRiskM (s : RiskAssessmentEngine) (now availableLiquidity : ℚ) :
    Option LiquidityRisk × RiskAssessmentEngine :=
  (assessLiquidityRisk s now availableLiquidity, s)

/-- `assessCollateralRisk` with the receiver threaded. -/
def assessCollateralRiskM (s : RiskAssessmentEngine) :
    Option CollateralRisk × RiskAssessmentEngine :=
  (assessCollateralRisk s, s)

/-- `assessLiquidationRisk` with the receiver threaded. -/
def assessLiquidationRiskM (s : RiskAssessmentEngine) :
    Option LiquidationRisk × RiskAssessmentEngine :=
  (assessLiquidationRisk s, s)

/-- `performRiskAssessment` with the receiver threaded through its three
sub-assessment calls. -/
def performRiskAssessmentM (s : RiskAssessmentEngine) (now availableLiquidity : ℚ) :
    RiskAssessment × RiskAssessmentEngine :=
  let s₁ := (assessLiquidityRiskM s now availableLiquidity).2
  let s₂ := (assessCollateralRiskM s₁).2
  let s₃ := (assessLiquidationRiskM s₂).2
  (performRiskAssessment s now availableLiquidity, s₃)

/-! ## Helper lemmas -/

/-- `Math.round` of a nonnegative number is nonnegative. -/
lemma jsRound_nonneg {x : ℚ} (hx : 0 ≤ x) : 0 ≤ jsRound x := by
  unfold jsRound
  exact Int.le_floor.mpr (by push_cast; linarith)

lemma insertDesc_ne_nil (x : ProtocolAdj) (l : List ProtocolAdj) :
    insertDesc x l ≠ [] := by
  cases l with
  | nil => simp [insertDesc]
  | cons y ys =>
      unfold insertDesc
      split <;> simp

lemma mem_insertDesc {a x : ProtocolAdj} {l : List ProtocolAdj} :
    a ∈ insertDesc x l ↔ a = x ∨ a ∈ l := by
  induction l with
  | nil => simp [insertDesc]
  | cons y ys ih =>
      unfold insertDesc
      split
      · simp
      · simp [ih]
        tauto

lemma insertDesc_map_sum (f : ProtocolAdj → ℚ) (x : ProtocolAdj)
    (l : List ProtocolAdj) :
    ((insertDesc x l).map f).sum = f x + (l.map f).sum := by
  induction l with
  | nil => simp [insertDesc]
  | cons y ys ih =>
      unfold insertDesc
      split
      · simp
      · simp [ih]
        ring

lemma sortByAdjustedApy_ne_nil {l : List ProtocolAdj} (h : l ≠ []) :
    sortByAdjustedApy l ≠ [] := by
  cases l with
  | nil => exact absurd rfl h
  | cons x xs => exact insertDesc_ne_nil x (sortByAdjustedApy xs)

lemma mem_sortByAdjustedApy {a : ProtocolAdj} {l : List ProtocolAdj} :
    a ∈ sortByAdjustedApy l ↔ a ∈ l := by
  induction l with
  | nil => simp [sortByAdjustedApy]
  | cons x xs ih =>
      unfold sortByAdjustedApy
      rw [mem_insertDesc]
      simp [ih]

lemma sortByAdjustedApy_map_sum (f : ProtocolAdj → ℚ) (l : List ProtocolAdj) :
    ((sortByAdjustedApy l).map f).sum = (l.map f).sum := by
  induction l with
  | nil => rfl
  | cons x xs ih =>
      unfold sortByAdjustedApy
      rw [insertDesc_map_sum, ih]
      simp

/-- Sum of the allocation percentages produced by the allocation loop:
when every per-protocol rounded share is nonnegative, the loop hands out
exactly the remaining budget (dropped zero allocations consume nothing,
the last protocol absorbs the remainder). -/
lemma allocate_sum (total : ℚ) :
    ∀ (l : List ProtocolAdj), l ≠ [] →
    (∀ p ∈ l, 0 ≤ ((jsRound (p.adjustedApy / total * 100) : ℤ) : ℚ)) →
    ∀ remaining : ℚ, 0 ≤ remaining →
    ((allocate total l remaining).map (fun r => r.allocationPercentage)).sum
      = remaining := by
  intro l
  induction l with
  | nil => intro h; exact absurd rfl h
  | cons p rest ih =>
      intro _ hround remaining hrem
      cases rest with
      | nil =>
          unfold allocate
          split
          · simp [mkRecommendation]
          · simp
            linarith
      | cons q rest₂ =>
          have hp : 0 ≤ ((jsRound (p.adjustedApy / total * 100) : ℤ) : ℚ) :=
            hround p (by simp)
          have key :
              allocate total (p :: q :: rest₂) remaining =
                (let alloc := min ((jsRound (p.adjustedApy / total * 100) : ℤ) : ℚ)
                  remaining
                 let tail := allocate total (q :: rest₂) (remaining - alloc)
                 if alloc > 0 then mkRecommendation p alloc :: tail else tail) := rfl
          rw [key]
          set alloc := min ((jsRound (p.adjustedApy / total * 100) : ℤ) : ℚ) remaining
            with halloc
          have halloc_nonneg : 0 ≤ alloc := le_min hp hrem
          have halloc_le : alloc ≤ remaining := min_le_right _ _
          have htail :
              ((allocate total (q :: rest₂) (remaining - alloc)).map
                (fun r => r.allocationPercentage)).sum = remaining - alloc :=
            ih (by simp) (fun x hx => hround x (List.mem_cons_of_mem _ hx)) _
              (by linarith)
          simp only []
          split
          · simp [mkRecommendation, htail]
          · rw [htail]
            have : alloc = 0 := le_antisymm (not_lt.mp (by assumption)) halloc_nonneg
            rw [this]
            ring

/-- Every recommendation pushed by the allocation loop carries a positive
allocation percentage (the `allocationPercentage > 0` push guard). -/
lemma allocate_pos (total : ℚ) :
    ∀ (l : List ProtocolAdj) (remaining : ℚ) (r : StrategyRecommendation),
    r ∈ allocate total l remaining → 0 < r.allocationPercentage := by
  intro l
  induction l with
  | nil => intro remaining r hr; simp [allocate] at hr
  | cons p rest ih =>
      intro remaining r hr
      cases rest with
      | nil =>
          unfold allocate at hr
          split at hr
          · simp at hr
            subst hr
            simpa [mkRecommendation] using (by assumption : remaining > 0)
          · simp at hr
      | cons q rest₂ =>
          have key :
              allocate total (p :: q :: rest₂) remaining =
                (let alloc := min ((jsRound (p.adjustedApy / total * 100) : ℤ) : ℚ)
                  remaining
                 let tail := allocate total (q :: rest₂) (remaining - alloc)
                 if alloc > 0 then mkRecommendation p alloc :: tail else tail) := rfl
          rw [key] at hr
          simp only [] at hr
          split at hr
          · rcases List.mem_cons.mp hr with h | h
            · subst h
              simpa [mkRecommendation] using (by assumption :
                min ((jsRound (p.adjustedApy / total * 100) : ℤ) : ℚ) remaining > 0)
            · exact ih _ _ h
          · exact ih _ _ hr


/-! ## Claims about `optimizeAllocation` -/

/-- A catalog on which the 100%-sum invariant fails: with risk preference
1, the adjusted APYs are 10, −3 and −4, so the middle protocol's rounded
share is −100; it is dropped from the output but still credited back to
the remaining budget, which the last protocol then absorbs in full. -/
def negativeApyOptimizer : AIYieldOptimizer :=
  { protocols :=
      [ { id := 1, name := "A", currentApy := 13, riskScore := 3,
          minimumDeposit := 1, lockupPeriod := 0 },
        { id := 2, name := "B", currentApy := 2, riskScore := 5,
          minimumDeposit := 1, lockupPeriod := 0 },
        { id := 3, name := "C", currentApy := 4, riskScore := 8,
          minimumDeposit := 1, lockupPeriod := 0 } ],
    userRiskPreference := 1 }

/-- C1 counterexample: allocatable funds are positive and three protocols
pass the minimum-deposit filter, yet the returned allocation percentages
sum to 200, not 100 — a negative risk-adjusted APY makes a non-last
protocol's rounded share negative, inflating the remaining budget. -/
theorem optimizeAllocation_sum_not_100_cex :
    0 < allocatableFunds 1000 10 ∧
    eligibleProtocols negativeApyOptimizer 1000 10 ≠ [] ∧
    ((optimizeAllocation negativeApyOptimizer 1000 10).map
      (fun r => r.allocationPercentage)).sum = 200 := by
  refine ⟨by norm_num [allocatableFunds], ?_, ?_⟩
  · norm_num [eligibleProtocols, List.filter, negativeApyOptimizer,
      allocatableFunds]
    simp
  · norm_num [optimizeAllocation, allocatableFunds, eligibleProtocols,
      protocolsWithAdjustedApy, sortedProtocols, totalAdjustedApy,
      calculateRiskAdjustedApy, sortByAdjustedApy, insertDesc, allocate,
      mkRecommendation, jsRound, List.filter, negativeApyOptimizer, min_def]
    rw [if_neg (by simp)]
    norm_num [getRiskLevelDescription, generateRecommendationReason]

/-- C1 (amended): for every risk preference, catalog and funds input with
positive allocatable funds and at least one protocol passing the
minimum-deposit filter, if additionally every eligible protocol's
risk-adjusted APY is nonnegative and their total is positive, the
returned allocation percentages sum to exactly 100. -/
theorem optimizeAllocation_sum_100 (s : AIYieldOptimizer)
    (availableFunds emergencyFundsPercentage : ℚ)
    (h1 : 0 < allocatableFunds availableFunds emergencyFundsPercentage)
    (h2 : eligibleProtocols s availableFunds emergencyFundsPercentage ≠ [])
    (h3 : ∀ p ∈ protocolsWithAdjustedApy s availableFunds emergencyFundsPercentage,
      0 ≤ p.adjustedApy)
    (h4 : 0 < totalAdjustedApy s availableFunds emergencyFundsPercentage) :
    ((optimizeAllocation s availableFunds emergencyFundsPercentage).map
      (fun r => r.allocationPercentage)).sum = 100 := by
  unfold optimizeAllocation
  rw [if_neg (not_le.mpr h1), if_neg (by simp [h2])]
  apply allocate_sum
  · unfold sortedProtocols
    apply sortByAdjustedApy_ne_nil
    unfold protocolsWithAdjustedApy
    simpa using h2
  · intro p hp
    have hmem : p ∈ protocolsWithAdjustedApy s availableFunds
        emergencyFundsPercentage := mem_sortByAdjustedApy.mp hp
    have hadj : 0 ≤ p.adjustedApy := h3 p hmem
    have hshare : 0 ≤ p.adjustedApy /
        totalAdjustedApy s availableFunds emergencyFundsPercentage * 100 := by
      apply mul_nonneg _ (by norm_num)
      exact div_nonneg hadj (le_of_lt h4)
    exact Int.cast_nonneg.mpr (jsRound_nonneg hshare)
  · norm_num

/-- C1 witness: on the constructor catalog with default preference 5,
funds 1000 and the default 10% emergency reserve, the percentages sum to
100. -/
theorem optimizeAllocation_sum_100_witness :
    ((optimizeAllocation (mkAIYieldOptimizer 5) 1000 10).map
      (fun r => r.allocationPercentage)).sum = 100 :=
  optimizeAllocation_sum_100 (mkAIYieldOptimizer 5) 1000 10
    (by norm_num [allocatableFunds])
    (by norm_num [eligibleProtocols, List.filter, mkAIYieldOptimizer,
      defaultProtocols, allocatableFunds]
        simp)
    (by norm_num [protocolsWithAdjustedApy, eligibleProtocols, List.filter,
      calculateRiskAdjustedApy, mkAIYieldOptimizer, defaultProtocols,
      allocatableFunds])
    (by norm_num [totalAdjustedApy, sortedProtocols, sortByAdjustedApy,
      insertDesc, protocolsWithAdjustedApy, eligibleProtocols, List.filter,
      calculateRiskAdjustedApy, mkAIYieldOptimizer, defaultProtocols,
      allocatableFunds])

/-- C9: every recommendation returned by `optimizeAllocation` has a
strictly positive allocation percentage — zero or negative computed
allocations are never pushed to the output. -/
theorem optimizeAllocation_alloc_pos (s : AIYieldOptimizer)
    (availableFunds emergencyFundsPercentage : ℚ) (r : StrategyRecommendation)
    (hr : r ∈ optimizeAllocation s availableFunds emergencyFundsPercentage) :
    0 < r.allocationPercentage := by
  unfold optimizeAllocation at hr
  split at hr
  · simp at hr
  · split at hr
    · simp at hr
    · exact allocate_pos _ _ _ _ hr

/-- C9 witness: the Momentum recommendation produced for the default
catalog at funds 1000 is in the output and has positive percentage. -/
theorem optimizeAllocation_alloc_pos_witness :
    0 < (({ protocolId := 3, protocolName := "Momentum",
            allocationPercentage := 48, expectedApy := 12.5,
            riskLevel := "High",
            reason := { tier := .goodAllocation, apy := 12.5,
                        riskLevel := "High" } } :
          StrategyRecommendation)).allocationPercentage :=
  optimizeAllocation_alloc_pos (mkAIYieldOptimizer 5) 1000 10 _ (by
    norm_num [optimizeAllocation, allocatableFunds, eligibleProtocols,
      protocolsWithAdjustedApy, sortedProtocols, totalAdjustedApy,
      calculateRiskAdjustedApy, sortByAdjustedApy, insertDesc, allocate,
      mkRecommendation, jsRound, List.filter, mkAIYieldOptimizer,
      defaultProtocols, min_def]
    refine ⟨by simp, ?_, ?_⟩ <;>
      norm_num [getRiskLevelDescription, generateRecommendationReason])

/-- C2 (amended): `shouldRebalance` on an empty current-allocation record
always returns `false` — the comparison loop iterates only over the keys
of the *current* map, so protocols present only in the recommended map
are never examined. -/
theorem shouldRebalance_empty_false (s : AIYieldOptimizer) :
    shouldRebalance s [] = false := rfl

/-- C2 counterexample: on the constructor catalog the recomputed reference
allocation assigns Momentum 48% (> 10), yet `shouldRebalance` with the
empty current-allocation map returns `false`, not `true`. -/
theorem shouldRebalance_empty_cex :
    ({ protocolId := 3, protocolName := "Momentum",
       allocationPercentage := 48, expectedApy := 12.5,
       riskLevel := "High",
       reason := { tier := .goodAllocation, apy := 12.5,
                   riskLevel := "High" } } : StrategyRecommendation)
      ∈ optimizeAllocation (mkAIYieldOptimizer 5) 1000 10 ∧
    (10 : ℚ) < 48 ∧
    shouldRebalance (mkAIYieldOptimizer 5) [] = false := by
  refine ⟨?_, by norm_num, rfl⟩
  norm_num [optimizeAllocation, allocatableFunds, eligibleProtocols,
    protocolsWithAdjustedApy, sortedProtocols, totalAdjustedApy,
    calculateRiskAdjustedApy, sortByAdjustedApy, insertDesc, allocate,
    mkRecommendation, jsRound, List.filter, mkAIYieldOptimizer,
    defaultProtocols, min_def]
  refine ⟨by simp, ?_, ?_⟩ <;>
    norm_num [getRiskLevelDescription, generateRecommendationReason]

/-- C3 counterexample: with stored risk preference 10 the penalty scaling
factor is `(11 - 10) / 10 = 1 / 10`, not zero: the risk-adjusted APY of a
protocol with APY 5.2 and risk score 3 is 4.9, not 5.2. -/
theorem riskAdjustedApy_pref10_cex :
    (mkAIYieldOptimizer 10).userRiskPreference = 10 ∧
    calculateRiskAdjustedApy (mkAIYieldOptimizer 10) 5.2 3 ≠ 5.2 := by
  refine ⟨rfl, ?_⟩
  norm_num [calculateRiskAdjustedApy, mkAIYieldOptimizer]

/-- C3 (amended): when the stored risk preference equals 10 the penalty
scaling factor reaches its minimum `1/10` (not zero), so every protocol's
risk-adjusted APY equals `apy - riskScore / 10`. -/
theorem riskAdjustedApy_pref10 (s : AIYieldOptimizer)
    (h : s.userRiskPreference = 10) (apy riskScore : ℚ) :
    calculateRiskAdjustedApy s apy riskScore = apy - riskScore / 10 := by
  unfold calculateRiskAdjustedApy
  rw [h]
  ring

/-- C3 witness: at preference 10, APY 5.2 and risk score 3 the adjusted
APY is `5.2 - 3/10`. -/
theorem riskAdjustedApy_pref10_witness :
    calculateRiskAdjustedApy (mkAIYieldOptimizer 10) 5.2 3 = 5.2 - 3 / 10 :=
  riskAdjustedApy_pref10 (mkAIYieldOptimizer 10) rfl 5.2 3

/-- C4: `setRiskPreference` fails exactly when the value is below 1 or
above 10, and on success replaces the stored preference with the value. -/
theorem setRiskPreference_spec (s : AIYieldOptimizer) (v : ℚ) :
    (setRiskPreference s v =
        Except.error "Risk preference must be between 1 and 10"
      ↔ (v < 1 ∨ v > 10)) ∧
    (1 ≤ v → v ≤ 10 →
      setRiskPreference s v = Except.ok { s with userRiskPreference := v }) := by
  unfold setRiskPreference
  by_cases h : v < 1 ∨ v > 10
  · rw [if_pos h]
    refine ⟨⟨fun _ => h, fun _ => rfl⟩, fun h1 h2 => ?_⟩
    rcases h with h | h <;> linarith
  · rw [if_neg h]
    exact ⟨⟨fun hc => Except.noConfusion hc, fun hc => absurd hc h⟩,
      fun _ _ => rfl⟩

/-- C4 witness: 0 and 11 are rejected, the boundary values 1 and 10 are
accepted and stored. -/
theorem setRiskPreference_spec_witness :
    setRiskPreference (mkAIYieldOptimizer 5) 0 =
      Except.error "Risk preference must be between 1 and 10" ∧
    setRiskPreference (mkAIYieldOptimizer 5) 11 =
      Except.error "Risk preference must be between 1 and 10" ∧
    setRiskPreference (mkAIYieldOptimizer 5) 1 =
      Except.ok { mkAIYieldOptimizer 5 with userRiskPreference := 1 } ∧
    setRiskPreference (mkAIYieldOptimizer 5) 10 =
      Except.ok { mkAIYieldOptimizer 5 with userRiskPreference := 10 } :=
  ⟨(setRiskPreference_spec _ 0).1.mpr (Or.inl (by norm_num)),
   (setRiskPreference_spec _ 11).1.mpr (Or.inr (by norm_num)),
   (setRiskPreference_spec _ 1).2 (by norm_num) (by norm_num),
   (setRiskPreference_spec _ 10).2 (by norm_num) (by norm_num)⟩

/-! ## Claims about the risk assessments -/

/-- An engine whose two base-asset pending payments cancel (+100 and
−100), so `requiredLiquidity` is 0 although nonzero payments exist. -/
def cancellingPaymentsEngine : RiskAssessmentEngine :=
  updateMockData (mkRiskAssessmentEngine 0)
    { payments := some
        [ { id := 1, recipient := "0xaaa", amount := 100,
            nextPaymentTime := 1000, coin := aptosCoin },
          { id := 2, recipient := "0xbbb", amount := -100,
            nextPaymentTime := 2000, coin := aptosCoin } ],
      positions := some [] }

/-- C5 counterexample: a base-asset pending payment with nonzero amount
exists, yet `assessLiquidityRisk("0")` returns `null` instead of a
Critical assessment — the amounts sum to zero, and the `null` guard fires
on the sum, not on payment existence. -/
theorem assessLiquidityRisk_cancel_cex :
    ({ id := 1, recipient := "0xaaa", amount := 100, nextPaymentTime := 1000,
       coin := aptosCoin } : Payment) ∈ basePayments cancellingPaymentsEngine ∧
    (100 : ℚ) ≠ 0 ∧
    assessLiquidityRisk cancellingPaymentsEngine 0 0 = none := by
  refine ⟨?_, by norm_num, ?_⟩
  · norm_num [basePayments, cancellingPaymentsEngine, updateMockData,
      mkRiskAssessmentEngine, List.filter]
  · norm_num [assessLiquidityRisk, requiredLiquidity, basePayments,
      cancellingPaymentsEngine, updateMockData, mkRiskAssessmentEngine,
      List.filter]

/-- C5 (amended): `assessLiquidityRisk` returns `null` exactly when the
base-asset pending amounts sum to zero; otherwise the result's ratio is
`min 100 (available/required*100)` classified by the descending
`≤`-threshold chain; in particular, with zero available liquidity, a
*nonzero sum* of base-asset pending amounts (a single nonzero payment
does not suffice, since amounts may cancel) and a nonnegative critical
threshold, the risk level is Critical. -/
theorem assessLiquidityRisk_spec (s : RiskAssessmentEngine) (now avail : ℚ) :
    (assessLiquidityRisk s now avail = none ↔ requiredLiquidity s = 0) ∧
    (∀ r, assessLiquidityRisk s now avail = some r →
      r.requiredLiquidity = requiredLiquidity s ∧
      r.liquidityRatio = min 100 (avail / requiredLiquidity s * 100) ∧
      r.riskLevel = classifyByLe r.liquidityRatio s.liquidityCriticalThreshold
        s.liquidityHighThreshold s.liquidityMediumThreshold) ∧
    (requiredLiquidity s ≠ 0 → 0 ≤ s.liquidityCriticalThreshold →
      (assessLiquidityRisk s now 0).map (fun r => r.riskLevel) = some "Critical") := by
  refine ⟨?_, ?_, ?_⟩
  · by_cases h : requiredLiquidity s = 0 <;> simp [assessLiquidityRisk, h]
  · intro r hr
    by_cases h : requiredLiquidity s = 0
    · simp [assessLiquidityRisk, h] at hr
    · unfold assessLiquidityRisk at hr
      rw [if_neg h] at hr
      simp only [Option.some.injEq] at hr
      subst hr
      exact ⟨rfl, rfl, rfl⟩
  · intro hne hcrit
    unfold assessLiquidityRisk
    rw [if_neg hne]
    have hmin : min (100 : ℚ) (0 / requiredLiquidity s * 100) = 0 := by
      norm_num
    simp only [hmin, Option.map_some']
    simp [classifyByLe, hcrit]

/-- C5 witness: on the constructor mock data (required liquidity 100,
critical threshold 20), zero available liquidity is assessed Critical. -/
theorem assessLiquidityRisk_spec_witness :
    (assessLiquidityRisk (mkRiskAssessmentEngine 0) 0 0).map
      (fun r => r.riskLevel) = some "Critical" :=
  (assessLiquidityRisk_spec (mkRiskAssessmentEngine 0) 0 0).2.2
    (by simp [requiredLiquidity, basePayments, mkRiskAssessmentEngine,
      List.filter, aptosCoin])
    (by norm_num [mkRiskAssessmentEngine])

/-- Invariant of the riskiest-position scan: the tracked ratio never
increases, ends below every scanned position's ratio, and the final
accumulator is either untouched or a scanned position paired with its
ratio. -/
lemma collateralScan_spec (s : RiskAssessmentEngine) :
    ∀ (l : List Position) (acc : Option Position × ℚ),
    (collateralScan s l acc).2 ≤ acc.2 ∧
    (∀ p ∈ l, (collateralScan s l acc).2 ≤ collateralRatioOf s p) ∧
    (collateralScan s l acc = acc ∨
      ∃ p ∈ l, collateralScan s l acc = (some p, collateralRatioOf s p)) := by
  intro l
  induction l with
  | nil =>
      intro acc
      exact ⟨le_refl _, by simp, Or.inl rfl⟩
  | cons p rest ih =>
      intro acc
      have hstep : collateralScan s (p :: rest) acc =
          collateralScan s rest
            (if collateralRatioOf s p < acc.2 then (some p, collateralRatioOf s p)
             else acc) := rfl
      obtain ⟨ih1, ih2, ih3⟩ := ih
        (if collateralRatioOf s p < acc.2 then (some p, collateralRatioOf s p)
         else acc)
      have hacc2_le :
          (if collateralRatioOf s p < acc.2 then (some p, collateralRatioOf s p)
           else acc).2 ≤ acc.2 := by
        split
        · exact le_of_lt (by assumption)
        · exact le_refl _
      have hacc2_le_p :
          (if collateralRatioOf s p < acc.2 then (some p, collateralRatioOf s p)
           else acc).2 ≤ collateralRatioOf s p := by
        split
        · exact le_refl _
        · exact le_of_not_lt (by assumption)
      refine ⟨?_, ?_, ?_⟩
      · rw [hstep]
        exact le_trans ih1 hacc2_le
      · intro q hq
        rcases List.mem_cons.mp hq with h | h
        · subst h
          rw [hstep]
          exact le_trans ih1 hacc2_le_p
        · rw [hstep]
          exact ih2 q h
      · rw [hstep]
        rcases ih3 with h | ⟨q, hq, h⟩
        · rw [h]
          split
          · exact Or.inr ⟨p, by simp, rfl⟩
          · exact Or.inl rfl
        · exact Or.inr ⟨q, List.mem_cons_of_mem _ hq, h⟩

/-- C6 (amended): for every non-empty position set in which some position
has a collateral ratio below the `Number.MAX_SAFE_INTEGER` scan sentinel
(positions with astronomically large ratios are invisible to the strict
`<` scan), `assessCollateralRisk` reports a position with the lowest
collateral ratio, classified by the inclusive descending threshold chain;
a ratio exactly equal to the medium threshold and above the high and
critical thresholds classifies as Medium. -/
theorem assessCollateralRisk_spec (s : RiskAssessmentEngine)
    (hne : s.mockData.positions ≠ [])
    (hsm : ∃ p ∈ s.mockData.positions, collateralRatioOf s p < maxSafeInteger) :
    ∃ p ∈ s.mockData.positions,
      assessCollateralRisk s = some
        { borrowedAmount := p.borrowedAmount
          collateralAmount := p.collateralAmount
          collateralRatio := collateralRatioOf s p
          riskLevel := classifyByLe (collateralRatioOf s p)
            s.collateralCriticalThreshold s.collateralHighThreshold
            s.collateralMediumThreshold
          liquidationThreshold := p.liquidationThreshold } ∧
      (∀ q ∈ s.mockData.positions,
        collateralRatioOf s p ≤ collateralRatioOf s q) ∧
      (collateralRatioOf s p = s.collateralMediumThreshold →
        s.collateralHighThreshold < collateralRatioOf s p →
        s.collateralCriticalThreshold < collateralRatioOf s p →
        classifyByLe (collateralRatioOf s p) s.collateralCriticalThreshold
          s.collateralHighThreshold s.collateralMediumThreshold = "Medium") := by
  obtain ⟨h1, h2, h3⟩ :=
    collateralScan_spec s s.mockData.positions (none, maxSafeInteger)
  obtain ⟨p₀, hp₀, hr₀⟩ := hsm
  rcases h3 with h | ⟨p, hp, h⟩
  · exfalso
    have hbound := h2 p₀ hp₀
    rw [h] at hbound
    exact absurd (lt_of_le_of_lt hbound hr₀) (lt_irrefl _)
  · refine ⟨p, hp, ?_, ?_, ?_⟩
    · unfold assessCollateralRisk
      rw [if_neg hne, h]
    · intro q hq
      have := h2 q hq
      rw [h] at this
      exact this
    · intro hmed hhigh hcrit
      unfold classifyByLe
      rw [if_neg (not_le.mpr hcrit), if_neg (not_le.mpr hhigh),
        if_pos (le_of_eq hmed)]

/-- An engine holding a single position whose collateral ratio
(`10^14 · 10 / 1 · 100 = 10^17`) exceeds the `MAX_SAFE_INTEGER` sentinel
that seeds the riskiest-position scan. -/
def hugeRatioEngine : RiskAssessmentEngine :=
  updateMockData (mkRiskAssessmentEngine 0)
    { positions := some
        [ { protocol := "P", borrowedAsset := "USDC", borrowedAmount := 1,
            collateralAsset := "APT", collateralAmount := 100000000000000,
            liquidationThreshold := 150 } ] }

/-- C6 counterexample: a non-empty position set for which
`assessCollateralRisk` reports nothing at all — the single position's
ratio is not strictly below the sentinel, so the scan never selects it
and the method returns `null`. -/
theorem assessCollateralRisk_sentinel_cex :
    hugeRatioEngine.mockData.positions ≠ [] ∧
    assessCollateralRisk hugeRatioEngine = none := by
  constructor
  · simp [hugeRatioEngine, updateMockData, mkRiskAssessmentEngine]
  · norm_num [assessCollateralRisk, collateralScan, collateralRatioOf,
      hugeRatioEngine, updateMockData, mkRiskAssessmentEngine,
      maxSafeInteger, defaultPrices]
    rw [if_neg (by
      simp only [String.reduceEq, reduceIte]
      norm_num)]

/-- C6 witness: on the constructor mock data the worst position is the
Aries one (ratio 50 against Momentum's 70), classified Critical. -/
theorem assessCollateralRisk_spec_witness :
    (assessCollateralRisk (mkRiskAssessmentEngine 0)).map
      (fun r => (r.collateralRatio, r.riskLevel)) = some (50, "Critical") := by
  obtain ⟨p, hp, heq, hmin, -⟩ :=
    assessCollateralRisk_spec (mkRiskAssessmentEngine 0)
      (by simp [mkRiskAssessmentEngine])
      ⟨{ protocol := "Aries", borrowedAsset := "USDC", borrowedAmount := 1000,
         collateralAsset := "APT", collateralAmount := 50,
         liquidationThreshold := 125 },
       by simp [mkRiskAssessmentEngine],
       by
         simp [collateralRatioOf, mkRiskAssessmentEngine, defaultPrices]
         norm_num [maxSafeInteger]⟩
  have hle := hmin
    { protocol := "Aries", borrowedAsset := "USDC", borrowedAmount := 1000,
      collateralAsset := "APT", collateralAmount := 50,
      liquidationThreshold := 125 }
    (by simp [mkRiskAssessmentEngine])
  have h50 : collateralRatioOf (mkRiskAssessmentEngine 0) p = 50 := by
    simp [mkRiskAssessmentEngine] at hp
    rcases hp with hp | hp
    · subst hp
      simp [collateralRatioOf, mkRiskAssessmentEngine, defaultPrices]
      try norm_num
    · exfalso
      subst hp
      simp [collateralRatioOf, mkRiskAssessmentEngine, defaultPrices] at hle
      try norm_num at hle
  rw [heq]
  simp only [Option.map_some', Option.some.injEq]
  rw [h50]
  norm_num [classifyByLe, mkRiskAssessmentEngine]

lemma maxRank_cons (y : String) (ys : List String) :
    maxRank (y :: ys) = max (severityRank y) (maxRank ys) := rfl

lemma severityRank_le_three (x : String) : severityRank x ≤ 3 := by
  unfold severityRank
  split_ifs <;> omega

lemma rank_le_maxRank {x : String} {l : List String} (h : x ∈ l) :
    severityRank x ≤ maxRank l := by
  induction l with
  | nil => simp at h
  | cons y ys ih =>
      rcases List.mem_cons.mp h with h | h
      · subst h
        rw [maxRank_cons]
        exact le_max_left _ _
      · rw [maxRank_cons]
        exact le_trans (ih h) (le_max_right _ _)

lemma maxRank_le {l : List String} {n : ℕ}
    (h : ∀ x ∈ l, severityRank x ≤ n) : maxRank l ≤ n := by
  induction l with
  | nil => simp [maxRank]
  | cons y ys ih =>
      rw [maxRank_cons]
      exact max_le (h y (by simp)) (ih fun x hx => h x (List.mem_cons_of_mem _ hx))

lemma severityRank_eq_three {x : String} (h : severityRank x = 3) :
    x = "Critical" := by
  unfold severityRank at h
  split_ifs at h with h1 h2 h3 <;>
    first
    | exact h1
    | omega

lemma two_le_severityRank {x : String} (h : 2 ≤ severityRank x) :
    x = "Critical" ∨ x = "High" := by
  unfold severityRank at h
  split_ifs at h with h1 h2 h3 <;>
    first
    | exact Or.inl h1
    | exact Or.inr h2
    | omega

lemma one_le_severityRank {x : String} (h : 1 ≤ severityRank x) :
    x = "Critical" ∨ x = "High" ∨ x = "Medium" := by
  unfold severityRank at h
  split_ifs at h with h1 h2 h3 <;>
    first
    | exact Or.inl h1
    | exact Or.inr (Or.inl h2)
    | exact Or.inr (Or.inr h3)
    | omega

/-- The source's membership chain over risk-level strings computes the
maximum severity present in the list. -/
lemma overallChain_eq_rank (levels : List String) :
    (if "Critical" ∈ levels then "Critical"
     else if "High" ∈ levels then "High"
     else if "Medium" ∈ levels then "Medium"
     else "Low") = rankToLevel (maxRank levels) := by
  by_cases hc : "Critical" ∈ levels
  · rw [if_pos hc]
    have h3 : maxRank levels = 3 :=
      le_antisymm (maxRank_le fun x _ => severityRank_le_three x)
        (by simpa [severityRank] using rank_le_maxRank hc)
    rw [h3]
    rfl
  · rw [if_neg hc]
    have hle2 : maxRank levels ≤ 2 := maxRank_le fun x hx => by
      by_contra hgt
      push_neg at hgt
      have h3 : severityRank x = 3 :=
        le_antisymm (severityRank_le_three x) hgt
      exact hc (severityRank_eq_three h3 ▸ hx)
    by_cases hh : "High" ∈ levels
    · rw [if_pos hh]
      have h2 : maxRank levels = 2 :=
        le_antisymm hle2 (by simpa [severityRank] using rank_le_maxRank hh)
      rw [h2]
      rfl
    · rw [if_neg hh]
      have hle1 : maxRank levels ≤ 1 := maxRank_le fun x hx => by
        by_contra hgt
        push_neg at hgt
        rcases two_le_severityRank hgt with h | h
        · exact hc (h ▸ hx)
        · exact hh (h ▸ hx)
      by_cases hm : "Medium" ∈ levels
      · rw [if_pos hm]
        have h1 : maxRank levels = 1 :=
          le_antisymm hle1 (by simpa [severityRank] using rank_le_maxRank hm)
        rw [h1]
        rfl
      · rw [if_neg hm]
        have h0 : maxRank levels = 0 := Nat.le_zero.mp
          (maxRank_le fun x hx => by
            by_contra hgt
            push_neg at hgt
            rcases one_le_severityRank hgt with h | h | h
            · exact hc (h ▸ hx)
            · exact hh (h ▸ hx)
            · exact hm (h ▸ hx))
        rw [h0]
        rfl

/-- C7: the overall risk level of `performRiskAssessment` is the maximum
severity (Low < Medium < High < Critical) among the risk levels of the
non-null sub-assessments, defaulting to Low when all are null; in
particular it is Critical whenever any sub-assessment is Critical. -/
theorem performRiskAssessment_overall_spec (s : RiskAssessmentEngine)
    (now availableLiquidity : ℚ) :
    (performRiskAssessment s now availableLiquidity).overallRiskLevel =
      rankToLevel (maxRank (presentRiskLevels s now availableLiquidity)) ∧
    ("Critical" ∈ presentRiskLevels s now availableLiquidity →
      (performRiskAssessment s now availableLiquidity).overallRiskLevel =
        "Critical") := by
  have hoverall :
      (performRiskAssessment s now availableLiquidity).overallRiskLevel =
        (if "Critical" ∈ presentRiskLevels s now availableLiquidity then
          "Critical"
         else if "High" ∈ presentRiskLevels s now availableLiquidity then
          "High"
         else if "Medium" ∈ presentRiskLevels s now availableLiquidity then
          "Medium"
         else "Low") := rfl
  constructor
  · rw [hoverall]
    exact overallChain_eq_rank _
  · intro hc
    rw [hoverall, if_pos hc]

/-- C7 witness: on the constructor mock data with 500 available liquidity
the collateral sub-assessment is Critical (Aries ratio 50 ≤ 110), so the
overall level is Critical. -/
theorem performRiskAssessment_overall_witness :
    (performRiskAssessment (mkRiskAssessmentEngine 0) 0 500).overallRiskLevel =
      "Critical" := by
  apply (performRiskAssessment_overall_spec (mkRiskAssessmentEngine 0) 0 500).2
  have hcoll : (assessCollateralRisk (mkRiskAssessmentEngine 0)).map
      (fun r => r.riskLevel) = some "Critical" := by
    simp [assessCollateralRisk, collateralScan, collateralRatioOf,
      mkRiskAssessmentEngine, defaultPrices, maxSafeInteger, classifyByLe]
    norm_num
  unfold presentRiskLevels
  rcases h : assessCollateralRisk (mkRiskAssessmentEngine 0) with _ | r
  · rw [h] at hcoll
    simp at hcoll
  · rw [h] at hcoll
    simp at hcoll
    simp [hcoll]

/-- C8 counterexample: the liquidity triple `{medium 1, high 2,
critical 3}` violates the required `medium > high > critical` ordering,
yet `setRiskThresholds` raises no error and stores it verbatim. -/
theorem setRiskThresholds_unordered_cex :
    ¬((1 : ℚ) > 2 ∧ (2 : ℚ) > 3) ∧
    (setRiskThresholds (mkRiskAssessmentEngine 0)
      (some { medium := 1, high := 2, critical := 3 }) none
      none).liquidityMediumThreshold = 1 ∧
    (setRiskThresholds (mkRiskAssessmentEngine 0)
      (some { medium := 1, high := 2, critical := 3 }) none
      none).liquidityHighThreshold = 2 ∧
    (setRiskThresholds (mkRiskAssessmentEngine 0)
      (some { medium := 1, high := 2, critical := 3 }) none
      none).liquidityCriticalThreshold = 3 := by
  refine ⟨by norm_num, rfl, rfl, rfl⟩

/-- C8 (amended): `setRiskThresholds` performs no validation and has no
failure path — every supplied triple, ordered or not, is stored verbatim
in the corresponding threshold fields, and omitted sections leave the
state untouched. -/
theorem setRiskThresholds_spec (s : RiskAssessmentEngine)
    (lt ct dt : ThresholdTriple) :
    (setRiskThresholds s (some lt) (some ct) (some dt)).liquidityMediumThreshold
        = lt.medium ∧
    (setRiskThresholds s (some lt) (some ct) (some dt)).liquidityHighThreshold
        = lt.high ∧
    (setRiskThresholds s (some lt) (some ct) (some dt)).liquidityCriticalThreshold
        = lt.critical ∧
    (setRiskThresholds s (some lt) (some ct) (some dt)).collateralMediumThreshold
        = ct.medium ∧
    (setRiskThresholds s (some lt) (some ct) (some dt)).collateralHighThreshold
        = ct.high ∧
    (setRiskThresholds s (some lt) (some ct) (some dt)).collateralCriticalThreshold
        = ct.critical ∧
    (setRiskThresholds s (some lt) (some ct) (some dt)).liquidationMediumThreshold
        = dt.medium ∧
    (setRiskThresholds s (some lt) (some ct) (some dt)).liquidationHighThreshold
        = dt.high ∧
    (setRiskThresholds s (some lt) (some ct) (some dt)).liquidationCriticalThreshold
        = dt.critical ∧
    setRiskThresholds s none none none = s :=
  ⟨rfl, rfl, rfl, rfl, rfl, rfl, rfl, rfl, rfl, rfl⟩

/-- C10: the read-only operations leave their receiver state unchanged,
and each mutator touches only its own part of the state: successful
`setRiskPreference` preserves the catalog, successful `updateProtocolInfo`
preserves the stored preference, `setRiskThresholds` preserves the mock
data, and `updateMockData` preserves all nine thresholds. -/
theorem readOnly_ops_frame :
    ∀ (s : AIYieldOptimizer) (availableFunds emergencyFundsPercentage v : ℚ)
      (currentAllocation : List (ℤ × ℚ)) (pid : ℤ) (patch : ProtocolInfoPatch)
      (t : RiskAssessmentEngine) (now avail : ℚ)
      (lt ct dt : Option ThresholdTriple) (md : MockDataPatch),
    (optimizeAllocationM s availableFunds emergencyFundsPercentage).2 = s ∧
    (shouldRebalanceM s currentAllocation).2 = s ∧
    (getProtocolsInfoM s).2 = s ∧
    (assessLiquidityRiskM t now avail).2 = t ∧
    (assessCollateralRiskM t).2 = t ∧
    (assessLiquidationRiskM t).2 = t ∧
    (performRiskAssessmentM t now avail).2 = t ∧
    (∀ s₂, setRiskPreference s v = Except.ok s₂ → s₂.protocols = s.protocols) ∧
    (∀ s₂, updateProtocolInfo s pid patch = Except.ok s₂ →
      s₂.userRiskPreference = s.userRiskPreference) ∧
    (setRiskThresholds t lt ct dt).mockData = t.mockData ∧
    (updateMockData t md).liquidityMediumThreshold = t.liquidityMediumThreshold ∧
    (updateMockData t md).liquidityHighThreshold = t.liquidityHighThreshold ∧
    (updateMockData t md).liquidityCriticalThreshold
      = t.liquidityCriticalThreshold ∧
    (updateMockData t md).collateralMediumThreshold
      = t.collateralMediumThreshold ∧
    (updateMockData t md).collateralHighThreshold = t.collateralHighThreshold ∧
    (updateMockData t md).collateralCriticalThreshold
      = t.collateralCriticalThreshold ∧
    (updateMockData t md).liquidationMediumThreshold
      = t.liquidationMediumThreshold ∧
    (updateMockData t md).liquidationHighThreshold
      = t.liquidationHighThreshold ∧
    (updateMockData t md).liquidationCriticalThreshold
      = t.liquidationCriticalThreshold := by
  intro s availableFunds emergencyFundsPercentage v currentAllocation pid patch
    t now avail lt ct dt md
  refine ⟨rfl, rfl, rfl, rfl, rfl, rfl, rfl, ?_, ?_, ?_,
    rfl, rfl, rfl, rfl, rfl, rfl, rfl, rfl, rfl⟩
  · intro s₂ h
    unfold setRiskPreference at h
    split at h
    · exact Except.noConfusion h
    · injection h with h
      subst h
      rfl
  · intro s₂ h
    unfold updateProtocolInfo at h
    split at h
    · exact Except.noConfusion h
    · injection h with h
      subst h
      rfl
  · cases lt <;> cases ct <;> cases dt <;> rfl

/-- C10 witness: concrete instances — `optimizeAllocation` and
`performRiskAssessment` leave their receivers untouched, and a
successful `setRiskPreference` call keeps the catalog. -/
theorem readOnly_ops_frame_witness :
    (optimizeAllocationM (mkAIYieldOptimizer 5) 1000 10).2
      = mkAIYieldOptimizer 5 ∧
    (performRiskAssessmentM (mkRiskAssessmentEngine 0) 0 500).2
      = mkRiskAssessmentEngine 0 ∧
    (mkAIYieldOptimizer 7).protocols = (mkAIYieldOptimizer 5).protocols := by
  obtain ⟨h1, -, -, -, -, -, h7, h8, -⟩ :=
    readOnly_ops_frame (mkAIYieldOptimizer 5) 1000 10 7 [] 1 {}
      (mkRiskAssessmentEngine 0) 0 500 none none none {}
  refine ⟨h1, h7, h8 (mkAIYieldOptimizer 7) ?_⟩
  unfold setRiskPreference
  rw [if_neg (by norm_num)]
  rfl
